import Mathlib

/-!
Shallow embedding of the web-analytics dashboard logic: the property-filter
store (`togglePropertyFilter`, `setWebAnalyticsFilters`), the tile-derivation
selector (`tiles`), and the breakdown-cell click mapping of the dashboard
component.  Machine strings are `String`, TS arrays are `List`, optional TS
fields are `Option`, and the tagged filter objects are an inductive type.
-/

/-- Operator of an event property filter.  The reducer only ever constructs
`Exact`; other operators can reach the store through the unvalidated
replace action, so a second constructor is kept to represent them. -/
inductive PropertyOperator where
  | Exact
  | IsNot
deriving DecidableEq, Repr

/-- A primitive TS filter value: a string, a number, or null/undefined. -/
inductive Prim where
  | pstr (s : String)
  | pnum (n : Int)
  | pnull
deriving DecidableEq, Repr

/-- The `value` field of an event property filter: either a bare primitive or
an array of primitives, mirroring the TS union `string | number | (string |
number)[] | null`. -/
inductive FVal where
  | prim (p : Prim)
  | arr (xs : List Prim)
deriving DecidableEq, Repr

/-- A property filter held by the store: either an `EventPropertyFilter`
(`type: Event`) with key, operator and value, or a `HogQLPropertyFilter`
(`type: HogQL`) whose `key` field holds an expression string and whose
optional `value` field is unset by the append path of the reducer. -/
inductive PropertyFilter where
  | event (key : String) (operator : PropertyOperator) (value : FVal)
  | hogql (key : String) (value : Option String)
deriving DecidableEq, Repr

/-- The `key` field of either kind of filter object. -/
def PropertyFilter.key : PropertyFilter → String
  | .event k _ _ => k
  | .hogql k _ => k

/-- The four set-once property names, from the source. -/
def setOncePropertyNames : List String :=
  ["$initial_pathname", "$initial_referrer", "$initial_utm_source", "$initial_utm_campaign"]

/-- A single-quote character as a string (the quote used inside generated
HogQL expressions). -/
def squote : String := String.singleton (Char.ofNat 39)

/-- Model of the JS `String.prototype.startsWith`: the characters of `pre`
are a prefix of the characters of `s`. -/
def strStartsWith (s pre : String) : Bool := pre.data.isPrefixOf s.data

/-- Source `hogqlForSetOnceProperty`: builds the expression
`properties.$set_once.KEY = 'VALUE'`. -/
def hogqlForSetOnceProperty (key value : String) : String :=
  "properties.$set_once." ++ key ++ " = " ++ squote ++ value ++ squote

/-- Source `isHogqlForSetOnceProperty`: `key` is a set-once name and the
`key` field `pKey` of the HogQL filter starts with the generated expression
head `properties.$set_once.KEY = `. -/
def isHogqlForSetOnceProperty (key pKey : String) : Bool :=
  setOncePropertyNames.contains key &&
    strStartsWith pKey ("properties.$set_once." ++ key ++ " = ")

/-- Source `isNotNil` restricted to primitive values: true unless null. -/
def isNotNil : Prim → Bool
  | .pnull => false
  | _ => true

/-- The normalization `(Array.isArray(f.value) ? f.value : [f.value]).filter(isNotNil)`
applied to an event-filter value. -/
def normalizedValues : FVal → List Prim
  | .arr xs => xs.filter isNotNil
  | .prim p => [p].filter isNotNil

/-- The search predicate of the toggle reducer: an Exact event filter with
the toggled key, or a HogQL filter whose expression encodes the (set-once)
toggled key. -/
def matchesToggle (key : String) : PropertyFilter → Bool
  | .event k op _ => k == key && op == PropertyOperator.Exact
  | .hogql k _ => isHogqlForSetOnceProperty key k

/-- The body of the `.map` in the match-found branch of the toggle reducer;
`none` models returning `null` (the entry is subsequently dropped by
`.filter(isNotNil)`). -/
def toggleMapFn (key value : String) (f : PropertyFilter) : Option PropertyFilter :=
  if setOncePropertyNames.contains key then
    match f with
    | .event .. => some f
    | .hogql pKey _ =>
      if !isHogqlForSetOnceProperty key pKey then some f
      else if pKey == hogqlForSetOnceProperty key value then none
      else some (.hogql key (some (hogqlForSetOnceProperty key value)))
  else
    match f with
    | .hogql .. => some f
    | .event k op v =>
      if k != key || op != PropertyOperator.Exact then some f
      else
        let oldValue := normalizedValues v
        if oldValue.contains (Prim.pstr value) then
          if oldValue.length > 1 then some (.event key .Exact (.arr [.pstr value]))
          else none
        else some (.event key .Exact (.arr (oldValue ++ [.pstr value])))

/-- The `newFilter` constructed by the no-match branch of the toggle
reducer: a HogQL filter whose `key` field is the generated expression (no
`value` field) for a set-once key, otherwise an Exact event filter whose
`value` field is the bare toggled string. -/
def newToggleFilter (key value : String) : PropertyFilter :=
  if setOncePropertyNames.contains key then
    .hogql (hogqlForSetOnceProperty key value) none
  else
    .event key .Exact (.prim (.pstr value))

/-- Source `togglePropertyFilter` reducer: if some existing filter matches
the key, map every filter through `toggleMapFn` and drop the `null`s;
otherwise append `newToggleFilter`. -/
def togglePropertyFilter (oldPropertyFilters : List PropertyFilter)
    (key value : String) : List PropertyFilter :=
  if oldPropertyFilters.any (matchesToggle key) then
    oldPropertyFilters.filterMap (toggleMapFn key value)
  else
    oldPropertyFilters ++ [newToggleFilter key value]

/-- Source `setWebAnalyticsFilters` reducer: unconditionally replaces the
filter list, with no validation of the supplied filters. -/
def setWebAnalyticsFilters (_old newFilters : List PropertyFilter) :
    List PropertyFilter := newFilters

/-- Source `initialWebAnalyticsFilter`: the empty filter list. -/
def initialWebAnalyticsFilter : List PropertyFilter := []

-- Source `SourceTab` string enum.
namespace SourceTab

def REFERRING_DOMAIN : String := "REFERRING_DOMAIN"

def UTM_SOURCE : String := "UTM_SOURCE"

def UTM_CAMPAIGN : String := "UTM_CAMPAIGN"

end SourceTab

-- Source `DeviceTab` string enum.
namespace DeviceTab

def BROWSER : String := "BROWSER"

def OS : String := "OS"

def DEVICE_TYPE : String := "DEVICE_TYPE"

end DeviceTab

-- Source `PathTab` string enum.
namespace PathTab

def PATH : String := "PATH"

def INITIAL_PATH : String := "INITIAL_PATH"

end PathTab

/-- The breakdown dimensions of `WebStatsBreakdown` used by the dashboard. -/
inductive WebStatsBreakdown where
  | Page
  | InitialPage
  | InitialReferringDomain
  | InitialUTMSource
  | InitialUTMCampaign
  | Browser
  | OS
  | DeviceType
deriving DecidableEq, Repr

/-- The only `BaseMathType` used by the dashboard queries. -/
inductive BaseMathType where
  | UniqueUsers
deriving DecidableEq, Repr

/-- The chart display types used by the dashboard queries. -/
inductive ChartDisplayType where
  | ActionsLineGraph
  | WorldMap
deriving DecidableEq, Repr

/-- Date range literal of a trends query; `date_to` is optional. -/
structure DateRange where
  date_from : String
  date_to : Option String
deriving DecidableEq, Repr

/-- An events-node series entry; `name` is set only in the unique-users
tile. -/
structure EventsNode where
  event : String
  math : Option BaseMathType
  name : Option String
deriving DecidableEq, Repr

/-- The `trendsFilter` literal; `compare` is set only in the unique-users
tile. -/
structure TrendsFilter where
  compare : Option Bool
  display : ChartDisplayType
deriving DecidableEq, Repr

/-- The `breakdown` literal of the world-map tile. -/
structure BreakdownFilter where
  breakdown : String
  breakdown_type : String
deriving DecidableEq, Repr

/-- A query source node as constructed by the `tiles` selector.  Each
constructor carries exactly the fields the source literal sets;
`filterTestAccounts` appears only on the trends queries because only those
literals set it. -/
inductive QuerySource where
  | webOverviewStatsQuery (properties : List PropertyFilter)
  | webStatsTableQuery (properties : List PropertyFilter) (breakdownBy : WebStatsBreakdown)
  | trendsQuery (dateRange : DateRange) (interval : Option String)
      (series : List EventsNode) (trendsFilter : TrendsFilter)
      (breakdown : Option BreakdownFilter) (filterTestAccounts : Bool)
      (properties : List PropertyFilter)
deriving DecidableEq, Repr

/-- A top-level query node: a `DataTableNode` (with its `full` flag) or an
`InsightVizNode`. -/
inductive QuerySchema where
  | dataTableNode (full : Bool) (source : QuerySource)
  | insightVizNode (source : QuerySource)
deriving DecidableEq, Repr

/-- The layout hints of a tile; the source sets only `colSpan`. -/
structure Layout where
  colSpan : Option Nat
  rowSpan : Option Nat
deriving DecidableEq, Repr

/-- Tag for the tab-setting action callback a tabs tile closes over. -/
inductive ActionRef where
  | setPathTab
  | setSourceTab
  | setDeviceTab
deriving DecidableEq, Repr

/-- One tab of a tabbed tile. -/
structure TabDesc where
  id : String
  title : String
  linkText : String
  query : QuerySchema
deriving DecidableEq, Repr

/-- A dashboard tile descriptor: a plain query tile or a tabbed group. -/
inductive WebDashboardTile where
  | queryTile (layout : Layout) (title : Option String) (query : QuerySchema)
  | tabsTile (layout : Layout) (activeTabId : String) (setTabId : ActionRef)
      (tabs : List TabDesc)
deriving DecidableEq, Repr

/-- The `tiles` selector: derives the ordered tile list from the filter
list and the three tab selections, transcribed literal by literal from the
source. -/
def tiles (webAnalyticsFilters : List PropertyFilter)
    (pathTab deviceTab sourceTab : String) : List WebDashboardTile :=
  [ .queryTile ⟨some 12, none⟩ none
      (.dataTableNode true (.webOverviewStatsQuery webAnalyticsFilters)),
    .tabsTile ⟨some 6, none⟩ pathTab .setPathTab
      [ ⟨PathTab.PATH, "Top Paths", "Path",
          .dataTableNode true (.webStatsTableQuery webAnalyticsFilters .Page)⟩,
        ⟨PathTab.INITIAL_PATH, "Top Entry Paths", "Entry Path",
          .dataTableNode true (.webStatsTableQuery webAnalyticsFilters .InitialPage)⟩ ],
    .tabsTile ⟨some 6, none⟩ sourceTab .setSourceTab
      [ ⟨SourceTab.REFERRING_DOMAIN, "Top Referrers", "Referrer",
          .dataTableNode true (.webStatsTableQuery webAnalyticsFilters .InitialReferringDomain)⟩,
        ⟨SourceTab.UTM_SOURCE, "Top Sources", "UTM Source",
          .dataTableNode true (.webStatsTableQuery webAnalyticsFilters .InitialUTMSource)⟩,
        ⟨SourceTab.UTM_CAMPAIGN, "Top Campaigns", "UTM Campaign",
          .dataTableNode true (.webStatsTableQuery webAnalyticsFilters .InitialUTMCampaign)⟩ ],
    .tabsTile ⟨some 6, none⟩ deviceTab .setDeviceTab
      [ ⟨DeviceTab.BROWSER, "Top Browsers", "Browser",
          .dataTableNode true (.webStatsTableQuery webAnalyticsFilters .Browser)⟩,
        ⟨DeviceTab.OS, "Top OSs", "OS",
          .dataTableNode true (.webStatsTableQuery webAnalyticsFilters .OS)⟩,
        ⟨DeviceTab.DEVICE_TYPE, "Top Device Types", "Device Type",
          .dataTableNode true (.webStatsTableQuery webAnalyticsFilters .DeviceType)⟩ ],
    .queryTile ⟨some 6, none⟩ (some "Unique users")
      (.insightVizNode (.trendsQuery ⟨"-7d", some "-1d"⟩ (some "day")
        [⟨"$pageview", some .UniqueUsers, some "$pageview"⟩]
        ⟨some true, .ActionsLineGraph⟩ none true webAnalyticsFilters)),
    .queryTile ⟨some 6, none⟩ (some "World Map (Unique Users)")
      (.insightVizNode (.trendsQuery ⟨"-7d", none⟩ none
        [⟨"$pageview", some .UniqueUsers, none⟩]
        ⟨none, .WorldMap⟩ (some ⟨"$geoip_country_code", "person"⟩) true
        webAnalyticsFilters)) ]

/-- The queries embedded in a tile: the single query of a query tile, or
all tab queries of a tabbed tile. -/
def tileQueries : WebDashboardTile → List QuerySchema
  | .queryTile _ _ q => [q]
  | .tabsTile _ _ _ tabs => tabs.map (·.query)

/-- The source node of a query. -/
def querySource : QuerySchema → QuerySource
  | .dataTableNode _ s => s
  | .insightVizNode s => s

/-- The property-filter list a query source carries. -/
def sourceProperties : QuerySource → List PropertyFilter
  | .webOverviewStatsQuery ps => ps
  | .webStatsTableQuery ps _ => ps
  | .trendsQuery _ _ _ _ _ _ ps => ps

/-- The `filterTestAccounts` field of a query source, `none` when the
source literal does not set it. -/
def sourceFilterTestAccounts : QuerySource → Option Bool
  | .webOverviewStatsQuery _ => none
  | .webStatsTableQuery _ _ => none
  | .trendsQuery _ _ _ _ _ fta _ => some fta

/-- The tab count of a tile, `none` for a plain query tile. -/
def tileTabCount : WebDashboardTile → Option Nat
  | .queryTile .. => none
  | .tabsTile _ _ _ tabs => some tabs.length

/-- The switch of `BreakdownValueCell` mapping a breakdown dimension to the
property name toggled on click; `some` on every arm mirrors the fact that
the default arm of the source switch throws and is never taken for a legal
enum value. -/
def breakdownValueCellPropertyName : WebStatsBreakdown → Option String
  | .Page => some "$pathname"
  | .InitialPage => some "$initial_pathname"
  | .InitialReferringDomain => some "$initial_referrer"
  | .InitialUTMSource => some "$initial_utm_source"
  | .InitialUTMCampaign => some "$initial_utm_campaign"
  | .Browser => some "$browser"
  | .OS => some "$os"
  | .DeviceType => some "$device_type"

/-- The switch of `BreakdownValueTitle` mapping a breakdown dimension to the
column title; again the default arm of the source switch throws and is
never taken for a legal enum value. -/
def breakdownValueTitle : WebStatsBreakdown → Option String
  | .Page => some "Path"
  | .InitialPage => some "Initial Path"
  | .InitialReferringDomain => some "Referring Domain"
  | .InitialUTMSource => some "UTM Source"
  | .InitialUTMCampaign => some "UTM Campaign"
  | .Browser => some "Browser"
  | .OS => some "OS"
  | .DeviceType => some "Device Type"

/-- The click handler of `BreakdownValueCell`: computes the property name
for the breakdown dimension and dispatches `togglePropertyFilter` with it
and the clicked string value, yielding the next filter list. -/
def breakdownValueCellClick (oldFilters : List PropertyFilter)
    (b : WebStatsBreakdown) (value : String) : Option (List PropertyFilter) :=
  (breakdownValueCellPropertyName b).map
    (fun propertyName => togglePropertyFilter oldFilters propertyName value)

/-! ## Helper lemmas about the toggle reducer -/

/-- A generated set-once expression satisfies the set-once match predicate
for its own key. -/
theorem isHogql_self (key value : String) (h : setOncePropertyNames.contains key = true) :
    isHogqlForSetOnceProperty key (hogqlForSetOnceProperty key value) = true := by
  unfold isHogqlForSetOnceProperty hogqlForSetOnceProperty strStartsWith
  rw [h]
  simp only [Bool.true_and]
  rw [List.isPrefixOf_iff_prefix]
  refine ⟨(squote ++ value ++ squote).data, ?_⟩
  simp [String.data_append, List.append_assoc]

/-- A filter whose key field differs from the toggled non-set-once key does
not match the toggle search predicate. -/
theorem matchesToggle_eq_false_of_key_ne (k : String) (f : PropertyFilter)
    (hk : setOncePropertyNames.contains k = false) (h : (f.key == k) = false) :
    matchesToggle k f = false := by
  cases f with
  | event k' op v =>
    simp only [PropertyFilter.key] at h
    simp [matchesToggle, h]
  | hogql k' v =>
    have hiso : isHogqlForSetOnceProperty k k' = false := by
      unfold isHogqlForSetOnceProperty
      rw [hk]
      rfl
    simp [matchesToggle, hiso]

/-- A filter that does not match the toggle search predicate passes through
the map body unchanged. -/
theorem toggleMapFn_of_not_matches (key value : String) (f : PropertyFilter)
    (h : matchesToggle key f = false) : toggleMapFn key value f = some f := by
  unfold toggleMapFn
  split
  · cases f with
    | event k op v => rfl
    | hogql pKey pv =>
      have h' : isHogqlForSetOnceProperty key pKey = false := by
        simpa [matchesToggle] using h
      simp [h']
  · cases f with
    | hogql pKey pv => rfl
    | event k op v =>
      have h' : (k == key && op == PropertyOperator.Exact) = false := by
        simpa [matchesToggle] using h
      have hguard : (k != key || op != PropertyOperator.Exact) = true := by
        cases hk : k == key <;> cases hop : op == PropertyOperator.Exact <;>
          simp_all [bne]
      simp [hguard]

/-- Mapping an element-preserving function over a list returns the list. -/
theorem filterMap_eq_self_of_forall {α : Type} (g : α → Option α) :
    ∀ l : List α, (∀ a ∈ l, g a = some a) → l.filterMap g = l
  | [], _ => rfl
  | a :: l, h => by
    rw [List.filterMap_cons, h a (List.mem_cons_self a l),
      filterMap_eq_self_of_forall g l (fun x hx => h x (List.mem_cons_of_mem a hx))]

/-- The freshly appended filter matches the toggle search predicate for its
key. -/
theorem matchesToggle_newToggleFilter (key value : String) :
    matchesToggle key (newToggleFilter key value) = true := by
  unfold newToggleFilter
  cases h : setOncePropertyNames.contains key with
  | true => simp [matchesToggle, isHogql_self key value h]
  | false => simp [matchesToggle]

/-- Toggling the same key and value maps the freshly appended filter to
`none` (it is removed). -/
theorem toggleMapFn_newToggleFilter (key value : String) :
    toggleMapFn key value (newToggleFilter key value) = none := by
  unfold newToggleFilter toggleMapFn
  cases h : setOncePropertyNames.contains key with
  | true => simp [isHogql_self key value h]
  | false => simp [normalizedValues, isNotNil, List.contains]

/-- When no existing filter matches, the toggle reducer appends the fresh
filter. -/
theorem togglePropertyFilter_no_match (S : List PropertyFilter) (key value : String)
    (h : S.any (matchesToggle key) = false) :
    togglePropertyFilter S key value = S ++ [newToggleFilter key value] := by
  simp [togglePropertyFilter, h]

/-- All filters of a list whose keys differ from a non-set-once key fail
the toggle search predicate. -/
theorem any_matchesToggle_eq_false_of_all_key_ne (S : List PropertyFilter) (k : String)
    (hk : setOncePropertyNames.contains k = false)
    (hS : S.all (fun f => f.key != k) = true) :
    S.any (matchesToggle k) = false := by
  rw [List.any_eq_false]
  intro f hf
  have hkey := List.all_eq_true.mp hS f hf
  have hbeq : (f.key == k) = false := by simpa [bne] using hkey
  simp [matchesToggle_eq_false_of_key_ne k f hk hbeq]

/-! ## Claim theorems -/

/-- Claim C1 (code bug): the claimed invariant — at most one filter entry
per distinct key after any toggle sequence — is broken by the code.  From
the initial empty list, four toggles on the set-once key `$initial_pathname`
with differing values leave the list holding two entries whose key field is
`$initial_pathname`, because the replace path of the reducer writes the raw
key into the key field and the expression into the value field, after which
the entry no longer matches the set-once predicate of the reducer itself. -/
theorem claim1_code_bug_duplicate_set_once_keys :
    (togglePropertyFilter (togglePropertyFilter (togglePropertyFilter
      (togglePropertyFilter initialWebAnalyticsFilter "$initial_pathname" "a")
      "$initial_pathname" "b") "$initial_pathname" "c") "$initial_pathname" "d").countP
      (fun f => f.key == "$initial_pathname") = 2 := by decide

/-- Claim C2 counterexample: the tile-derivation function does not return
7 tiles; at the default inputs it returns 6. -/
theorem claim2_counterexample_seven_tiles :
    (tiles initialWebAnalyticsFilter PathTab.PATH DeviceTab.BROWSER
      SourceTab.REFERRING_DOMAIN).length ≠ 7 := by decide

/-- Claim C2 (amended): for every input the tile-derivation function
returns a fixed sequence of exactly 6 tiles — a query tile, then tabbed
tiles of 2, 3 and 3 tabs, then two query tiles — and is deterministic:
structurally identical inputs produce structurally identical output. -/
theorem claim2_amended_six_tiles (f f2 : List PropertyFilter) (p p2 d d2 s s2 : String)
    (hf : f = f2) (hp : p = p2) (hd : d = d2) (hs : s = s2) :
    (tiles f p d s).length = 6
    ∧ (tiles f p d s).map tileTabCount = [none, some 2, some 3, some 3, none, none]
    ∧ tiles f p d s = tiles f2 p2 d2 s2 := by
  subst hf; subst hp; subst hd; subst hs
  exact ⟨rfl, rfl, rfl⟩

/-- Witness for the amended claim C2 at the default tab selections and the
empty filter list. -/
theorem claim2_amended_six_tiles_witness :
    (tiles [] PathTab.PATH DeviceTab.BROWSER SourceTab.REFERRING_DOMAIN).length = 6
    ∧ (tiles [] PathTab.PATH DeviceTab.BROWSER SourceTab.REFERRING_DOMAIN).map tileTabCount
        = [none, some 2, some 3, some 3, none, none]
    ∧ tiles [] PathTab.PATH DeviceTab.BROWSER SourceTab.REFERRING_DOMAIN
        = tiles [] PathTab.PATH DeviceTab.BROWSER SourceTab.REFERRING_DOMAIN :=
  claim2_amended_six_tiles [] [] PathTab.PATH PathTab.PATH DeviceTab.BROWSER
    DeviceTab.BROWSER SourceTab.REFERRING_DOMAIN SourceTab.REFERRING_DOMAIN
    rfl rfl rfl rfl

/-- Claim C3 counterexample: from the empty list, toggling
(`$pathname`, `/home`) does not produce a filter whose value is the
one-element array containing `/home`; the value field is the bare string. -/
theorem claim3_counterexample_array_value :
    ¬ (togglePropertyFilter [] "$pathname" "/home"
        = [.event "$pathname" .Exact (.arr [.pstr "/home"])]) := by decide

/-- Claim C3 (amended): when no filter matches a non-set-once key, the
toggle reducer appends a new Exact event filter for that key whose value
field is the bare toggled string (a scalar, which later reads normalize to
a one-element array), not an array. -/
theorem claim3_amended_append_scalar (S : List PropertyFilter) (key value : String)
    (hk : setOncePropertyNames.contains key = false)
    (h : S.any (matchesToggle key) = false) :
    togglePropertyFilter S key value
      = S ++ [.event key .Exact (.prim (.pstr value))] := by
  rw [togglePropertyFilter_no_match S key value h]
  have hnew : newToggleFilter key value = .event key .Exact (.prim (.pstr value)) := by
    unfold newToggleFilter
    rw [hk]
    rfl
  rw [hnew]

/-- Witness for the amended claim C3: the scenario of the spec evaluated
from the empty filter list. -/
theorem claim3_amended_append_scalar_witness :
    togglePropertyFilter [] "$pathname" "/home"
      = [.event "$pathname" .Exact (.prim (.pstr "/home"))] :=
  claim3_amended_append_scalar [] "$pathname" "/home" (by decide) (by decide)

/-- Claim C4 (code bug): toggling the same set-once value removes the
filter as specified, but toggling a different value does not produce an
entry structurally equal to a freshly appended one.  The replace path puts
the raw key in the key field and the expression in the optional value
field, while the append path puts the expression in the key field and
leaves the value field unset. -/
theorem claim4_code_bug_set_once_replace :
    togglePropertyFilter [.hogql (hogqlForSetOnceProperty "$initial_pathname" "a") none]
        "$initial_pathname" "a" = []
    ∧ togglePropertyFilter [.hogql (hogqlForSetOnceProperty "$initial_pathname" "a") none]
        "$initial_pathname" "b"
      = [.hogql "$initial_pathname" (some (hogqlForSetOnceProperty "$initial_pathname" "b"))]
    ∧ togglePropertyFilter [] "$initial_pathname" "b"
      = [.hogql (hogqlForSetOnceProperty "$initial_pathname" "b") none]
    ∧ [PropertyFilter.hogql "$initial_pathname"
        (some (hogqlForSetOnceProperty "$initial_pathname" "b"))]
      ≠ [PropertyFilter.hogql (hogqlForSetOnceProperty "$initial_pathname" "b") none] :=
  ⟨by decide, by decide, by decide, by decide⟩

/-- Claim C5: for every filter list with no filter matching the toggled
key, toggling the same key and value twice in succession restores the
original list, for event keys and set-once keys alike. -/
theorem claim5_double_toggle_identity (S : List PropertyFilter) (key value : String)
    (h : S.any (matchesToggle key) = false) :
    togglePropertyFilter (togglePropertyFilter S key value) key value = S := by
  rw [togglePropertyFilter_no_match S key value h]
  have hunchanged : ∀ f ∈ S, toggleMapFn key value f = some f := by
    intro f hf
    have := List.any_eq_false.mp h f hf
    exact toggleMapFn_of_not_matches key value f (by simpa using this)
  have hc : ((S ++ [newToggleFilter key value]).any (matchesToggle key)) = true := by
    rw [List.any_append]
    simp [h, matchesToggle_newToggleFilter]
  simp only [togglePropertyFilter, hc, if_true]
  rw [List.filterMap_append, filterMap_eq_self_of_forall _ S hunchanged]
  simp [toggleMapFn_newToggleFilter]

/-- Witness for claim C5: double toggle of a fresh event key, and of a
fresh set-once key, next to an unrelated existing filter. -/
theorem claim5_double_toggle_identity_witness :
    togglePropertyFilter (togglePropertyFilter
        [.event "$browser" .Exact (.prim (.pstr "Chrome"))] "$pathname" "/home")
        "$pathname" "/home"
      = [.event "$browser" .Exact (.prim (.pstr "Chrome"))]
    ∧ togglePropertyFilter (togglePropertyFilter
        [.event "$browser" .Exact (.prim (.pstr "Chrome"))] "$initial_pathname" "/home")
        "$initial_pathname" "/home"
      = [.event "$browser" .Exact (.prim (.pstr "Chrome"))] :=
  ⟨claim5_double_toggle_identity
      [.event "$browser" .Exact (.prim (.pstr "Chrome"))] "$pathname" "/home" (by decide),
    claim5_double_toggle_identity
      [.event "$browser" .Exact (.prim (.pstr "Chrome"))] "$initial_pathname" "/home"
      (by decide)⟩

/-- Claim C6: toggling two distinct values on a fresh non-set-once key
yields exactly one filter for that key, an Exact event filter whose value
array holds both values in toggle order. -/
theorem claim6_multi_value_union (S : List PropertyFilter) (k v1 v2 : String)
    (hk : setOncePropertyNames.contains k = false)
    (hv : v1 ≠ v2)
    (hS : S.all (fun f => f.key != k) = true) :
    togglePropertyFilter (togglePropertyFilter S k v1) k v2
        = S ++ [.event k .Exact (.arr [.pstr v1, .pstr v2])]
    ∧ (S ++ [PropertyFilter.event k .Exact (.arr [.pstr v1, .pstr v2])]).countP
        (fun f => f.key == k) = 1 := by
  have hany := any_matchesToggle_eq_false_of_all_key_ne S k hk hS
  have hnew : newToggleFilter k v1 = .event k .Exact (.prim (.pstr v1)) := by
    unfold newToggleFilter
    rw [hk]
    rfl
  constructor
  · rw [togglePropertyFilter_no_match S k v1 hany, hnew]
    have hc : ((S ++ [PropertyFilter.event k .Exact (.prim (.pstr v1))]).any
        (matchesToggle k)) = true := by
      rw [List.any_append]
      simp [hany, matchesToggle]
    simp only [togglePropertyFilter, hc, if_true]
    rw [List.filterMap_append]
    have hunchanged : ∀ f ∈ S, toggleMapFn k v2 f = some f := by
      intro f hf
      have := List.any_eq_false.mp hany f hf
      exact toggleMapFn_of_not_matches k v2 f (by simpa using this)
    rw [filterMap_eq_self_of_forall _ S hunchanged]
    have hne : ¬ v2 = v1 := fun hcontra => hv hcontra.symm
    have hmap : toggleMapFn k v2 (.event k .Exact (.prim (.pstr v1)))
        = some (.event k .Exact (.arr [.pstr v1, .pstr v2])) := by
      unfold toggleMapFn
      rw [hk]
      simp [normalizedValues, isNotNil, hne]
    simp [hmap]
  · rw [List.countP_append]
    have h0 : S.countP (fun f => f.key == k) = 0 := by
      rw [List.countP_eq_zero]
      intro f hf
      have := List.all_eq_true.mp hS f hf
      simpa [bne] using this
    rw [h0]
    simp [PropertyFilter.key]

/-- Witness for claim C6: fresh key `$browser`, values Chrome then Firefox,
next to an unrelated filter. -/
theorem claim6_multi_value_union_witness :
    togglePropertyFilter (togglePropertyFilter
        [.event "$os" .Exact (.prim (.pstr "Mac OS X"))] "$browser" "Chrome")
        "$browser" "Firefox"
      = [.event "$os" .Exact (.prim (.pstr "Mac OS X")),
         .event "$browser" .Exact (.arr [.pstr "Chrome", .pstr "Firefox"])]
    ∧ ([PropertyFilter.event "$os" .Exact (.prim (.pstr "Mac OS X")),
        PropertyFilter.event "$browser" .Exact (.arr [.pstr "Chrome", .pstr "Firefox"])]).countP
        (fun f => f.key == "$browser") = 1 :=
  claim6_multi_value_union [.event "$os" .Exact (.prim (.pstr "Mac OS X"))]
    "$browser" "Chrome" "Firefox" (by decide) (by decide) (by decide)

/-- Claim C7: toggling a value already present in a multi-value Exact event
filter for a non-set-once key collapses the value array to just that value,
keeping the filter and leaving all other filters unchanged in order. -/
theorem claim7_collapse_to_single (A B : List PropertyFilter) (k v1 : String) (v : FVal)
    (hk : setOncePropertyNames.contains k = false)
    (hA : A.any (matchesToggle k) = false)
    (hB : B.any (matchesToggle k) = false)
    (hmem : (normalizedValues v).contains (Prim.pstr v1) = true)
    (hlen : (normalizedValues v).length > 1) :
    togglePropertyFilter (A ++ [.event k .Exact v] ++ B) k v1
      = A ++ [.event k .Exact (.arr [.pstr v1])] ++ B := by
  have hc : ((A ++ [PropertyFilter.event k .Exact v] ++ B).any (matchesToggle k)) = true := by
    rw [List.any_append, List.any_append]
    simp [matchesToggle]
  simp only [togglePropertyFilter, hc, if_true]
  rw [List.filterMap_append, List.filterMap_append]
  have hAid : A.filterMap (toggleMapFn k v1) = A :=
    filterMap_eq_self_of_forall _ A (fun f hf =>
      toggleMapFn_of_not_matches k v1 f (by simpa using List.any_eq_false.mp hA f hf))
  have hBid : B.filterMap (toggleMapFn k v1) = B :=
    filterMap_eq_self_of_forall _ B (fun f hf =>
      toggleMapFn_of_not_matches k v1 f (by simpa using List.any_eq_false.mp hB f hf))
  have hmem' : Prim.pstr v1 ∈ normalizedValues v := by simpa using hmem
  have hmap : toggleMapFn k v1 (.event k .Exact v)
      = some (.event k .Exact (.arr [.pstr v1])) := by
    unfold toggleMapFn
    rw [hk]
    simp [hmem', hlen]
  rw [hAid, hBid]
  simp [hmap]

/-- Witness for claim C7: a two-value browser filter collapses to the
clicked value, with neighbours on both sides untouched. -/
theorem claim7_collapse_to_single_witness :
    togglePropertyFilter
        ([.event "$os" .Exact (.prim (.pstr "Linux"))]
          ++ [.event "$browser" .Exact (.arr [.pstr "Chrome", .pstr "Firefox"])]
          ++ [.event "$device_type" .Exact (.prim (.pstr "Desktop"))])
        "$browser" "Chrome"
      = [.event "$os" .Exact (.prim (.pstr "Linux"))]
          ++ [.event "$browser" .Exact (.arr [.pstr "Chrome"])]
          ++ [.event "$device_type" .Exact (.prim (.pstr "Desktop"))] :=
  claim7_collapse_to_single
    [.event "$os" .Exact (.prim (.pstr "Linux"))]
    [.event "$device_type" .Exact (.prim (.pstr "Desktop"))]
    "$browser" "Chrome" (.arr [.pstr "Chrome", .pstr "Firefox"])
    (by decide) (by decide) (by decide) (by decide) (by decide)

/-- Claim C8 counterexample: not every query of every derived tile sets the
filter-test-accounts flag; the overview and breakdown-table queries leave
it unset. -/
theorem claim8_counterexample_filter_test_accounts :
    ((tiles initialWebAnalyticsFilter PathTab.PATH DeviceTab.BROWSER
        SourceTab.REFERRING_DOMAIN).all
      (fun t => (tileQueries t).all
        (fun q => sourceFilterTestAccounts (querySource q) == some true))) = false := by
  decide

/-- Claim C8 (amended): every query of every derived tile carries the
filter list verbatim as its property-filter set, but only the two trends
tiles set the filter-test-accounts flag (to true); the overview query and
the eight breakdown-table queries leave it unset. -/
theorem claim8_amended_properties_and_flags (f : List PropertyFilter) (p d s : String) :
    (tiles f p d s).map (fun t => (tileQueries t).map
        (fun q => sourceProperties (querySource q)))
      = [[f], [f, f], [f, f, f], [f, f, f], [f], [f]]
    ∧ (tiles f p d s).map (fun t => (tileQueries t).map
        (fun q => sourceFilterTestAccounts (querySource q)))
      = [[none], [none, none], [none, none, none], [none, none, none],
         [some true], [some true]] :=
  ⟨rfl, rfl⟩

/-- Claim C9: the breakdown-to-property-name mapping is total over the
closed breakdown enumeration (no legal value reaches the error branch),
agrees with the table of the spec, the column-title mapping is likewise
total, and a breakdown-value cell click dispatches the toggle action with
that property name and the clicked value. -/
theorem claim9_breakdown_mapping :
    (∀ (fs : List PropertyFilter) (b : WebStatsBreakdown) (v p : String),
        breakdownValueCellPropertyName b = some p →
        breakdownValueCellClick fs b v = some (togglePropertyFilter fs p v))
    ∧ (∀ b, (breakdownValueCellPropertyName b).isSome = true)
    ∧ (∀ b, (breakdownValueTitle b).isSome = true)
    ∧ breakdownValueCellPropertyName .Page = some "$pathname"
    ∧ breakdownValueCellPropertyName .InitialPage = some "$initial_pathname"
    ∧ breakdownValueCellPropertyName .InitialReferringDomain = some "$initial_referrer"
    ∧ breakdownValueCellPropertyName .InitialUTMSource = some "$initial_utm_source"
    ∧ breakdownValueCellPropertyName .InitialUTMCampaign = some "$initial_utm_campaign"
    ∧ breakdownValueCellPropertyName .Browser = some "$browser"
    ∧ breakdownValueCellPropertyName .OS = some "$os"
    ∧ breakdownValueCellPropertyName .DeviceType = some "$device_type" := by
  refine ⟨?_, fun b => by cases b <;> rfl, fun b => by cases b <;> rfl,
    rfl, rfl, rfl, rfl, rfl, rfl, rfl, rfl⟩
  intro fs b v p hp
  simp [breakdownValueCellClick, hp]

/-- Witness for claim C9: clicking the Page breakdown value `/home` on an
empty filter list dispatches the toggle for `$pathname`. -/
theorem claim9_breakdown_mapping_witness :
    breakdownValueCellClick [] .Page "/home"
      = some (togglePropertyFilter [] "$pathname" "/home") :=
  claim9_breakdown_mapping.1 [] .Page "/home" "$pathname" rfl

/-- Claim C10: a non-Exact event filter for a non-set-once key, as can be
supplied unvalidated through the replace action, is not treated as a match:
toggling that key leaves it unchanged and appends a second, fresh Exact
event filter with the same key, so the list then holds at least two entries
for that key. -/
theorem claim10_non_exact_duplicate (prev S : List PropertyFilter)
    (k value : String) (op : PropertyOperator) (w : FVal)
    (hk : setOncePropertyNames.contains k = false)
    (_hop : op ≠ PropertyOperator.Exact)
    (hmem : PropertyFilter.event k op w ∈ S)
    (hS : S.any (matchesToggle k) = false) :
    togglePropertyFilter (setWebAnalyticsFilters prev S) k value
        = S ++ [.event k .Exact (.prim (.pstr value))]
    ∧ 2 ≤ (S ++ [PropertyFilter.event k .Exact (.prim (.pstr value))]).countP
        (fun f => f.key == k) := by
  have hnew : newToggleFilter k value = .event k .Exact (.prim (.pstr value)) := by
    unfold newToggleFilter
    rw [hk]
    rfl
  constructor
  · rw [show setWebAnalyticsFilters prev S = S from rfl,
      togglePropertyFilter_no_match S k value hS, hnew]
  · rw [List.countP_append]
    have h1 : 0 < S.countP (fun f => f.key == k) :=
      List.countP_pos_iff.mpr ⟨.event k op w, hmem, by simp [PropertyFilter.key]⟩
    have h2 : ([PropertyFilter.event k .Exact (.prim (.pstr value))]).countP
        (fun f => f.key == k) = 1 := by
      simp [PropertyFilter.key]
    omega

/-- Witness for claim C10: an is-not browser filter supplied via the
replace action survives a toggle on the same key, which appends a second
browser entry. -/
theorem claim10_non_exact_duplicate_witness :
    togglePropertyFilter
        (setWebAnalyticsFilters []
          [.event "$browser" .IsNot (.prim (.pstr "Chrome"))]) "$browser" "Chrome"
      = [.event "$browser" .IsNot (.prim (.pstr "Chrome"))]
          ++ [.event "$browser" .Exact (.prim (.pstr "Chrome"))]
    ∧ 2 ≤ ([PropertyFilter.event "$browser" .IsNot (.prim (.pstr "Chrome"))]
          ++ [PropertyFilter.event "$browser" .Exact (.prim (.pstr "Chrome"))]).countP
        (fun f => f.key == "$browser") :=
  claim10_non_exact_duplicate [] [.event "$browser" .IsNot (.prim (.pstr "Chrome"))]
    "$browser" "Chrome" .IsNot (.prim (.pstr "Chrome"))
    (by decide) (by decide) (by decide) (by decide)
